import Mathlib

/-!
Verification development for the forex-factory calendar scrapers.

The definitions below are a shallow embedding of the row-classification and
time-reconstruction logic of `html_to_csv.py` (`extract_json_data`,
`parse_calendar_html`) and of `parse_time_label` from `extract_html_to_csv.py`.
Machine strings are modelled as Lean `String`/`List Char`; the ad-hoc regular
expressions of the source are implemented as explicit scanners with the same
matching semantics (anchoring, greediness, laziness and backtracking behaviour
of the concrete patterns used); Python exceptions (`ValueError` raised by
`datetime.replace` on out-of-range fields) are modelled with `Except`.
-/

/-- Characters matched by Python's `\s` (ASCII range) and stripped by `str.strip`. -/
def isPySpace (c : Char) : Bool :=
  c == ' ' || c == '\t' || c == '\n' || c == '\r' || c == '\x0b' || c == '\x0c'

/-- Python `str.strip()` (ASCII whitespace). -/
def pyStrip (s : String) : String :=
  (((s.toList.dropWhile isPySpace).reverse.dropWhile isPySpace).reverse).asString

/-- Python `str.lower()` (ASCII range, which is all the source ever feeds it). -/
def pyLower (s : String) : String :=
  (s.toList.map Char.toLower).asString

/-- Numeric value of a decimal digit character. -/
def digitVal (c : Char) : Nat :=
  c.toNat - 48

/-- Tail of `re.match(r"(\d\x7b1,2\x7d):(\d\x7b2\x7d)(am|pm)", s)` after the colon:
exactly two digits, then the literal suffix `am` or `pm`; trailing characters are
allowed because `re.match` only anchors at the start. -/
def afterColon (h : Nat) : List Char → Option (Nat × Nat × String)
  | m1 :: m2 :: s1 :: s2 :: _ =>
      if m1.isDigit && m2.isDigit then
        if s1 == 'a' && s2 == 'm' then some (h, digitVal m1 * 10 + digitVal m2, "am")
        else if s1 == 'p' && s2 == 'm' then some (h, digitVal m1 * 10 + digitVal m2, "pm")
        else none
      else none
  | _ => none

/-- `re.match(r"(\d\x7b1,2\x7d):(\d\x7b2\x7d)(am|pm)", s)` on a character list:
a greedy one-or-two digit hour (with the regex engine's backtracking from two
digits to one), a colon, two minute digits and an `am`/`pm` suffix. -/
def matchTimeAux : List Char → Option (Nat × Nat × String)
  | c1 :: c2 :: c3 :: rest =>
      if c1.isDigit then
        if c2.isDigit then
          if c3 == ':' then afterColon (digitVal c1 * 10 + digitVal c2) rest
          else none
        else if c2 == ':' then afterColon (digitVal c1) (c3 :: rest)
        else none
      else none
  | _ => none

/-- The time-label regex of all three scripts, applied to a (already lowercased)
string: returns `(hour digits, minute digits, suffix)` on a match. -/
def matchTimeLabel (s : String) : Option (Nat × Nat × String) :=
  matchTimeAux s.toList

/-- The 12-hour to 24-hour conversion of the source
(`if ampm == "pm" and hh < 12: hh += 12 elif ampm == "am" and hh == 12: hh = 0`). -/
def convert_to_24h (h : Nat) (ampm : String) : Nat :=
  if ampm = "pm" ∧ h < 12 then h + 12
  else if ampm = "am" ∧ h = 12 then 0
  else h

/-- Number of days in a month, as validated by Python's `datetime` constructor. -/
def isLeapYear (y : Nat) : Bool :=
  (y % 4 == 0 && y % 100 != 0) || y % 400 == 0

/-- Days in month `m` of year `y`; `0` for an out-of-range month so that no day
number validates against it. -/
def daysInMonth (y m : Nat) : Nat :=
  if m = 1 ∨ m = 3 ∨ m = 5 ∨ m = 7 ∨ m = 8 ∨ m = 10 ∨ m = 12 then 31
  else if m = 4 ∨ m = 6 ∨ m = 9 ∨ m = 11 then 30
  else if m = 2 then (if isLeapYear y then 29 else 28)
  else 0

/-- `datetime(year, month, 1).strftime("%b")`. -/
def monthAbbrev : Nat → String
  | 1 => "Jan" | 2 => "Feb" | 3 => "Mar" | 4 => "Apr"
  | 5 => "May" | 6 => "Jun" | 7 => "Jul" | 8 => "Aug"
  | 9 => "Sep" | 10 => "Oct" | 11 => "Nov" | 12 => "Dec"
  | _ => ""

/-- One attempt of `re.search(rf"\x7bmonth_str\x7d\s+(\d\x7b1,2\x7d)", text)` at a fixed
position: the month literal, one or more whitespace characters, then a greedy
one-or-two digit day number. -/
def monthDayAt (mon : List Char) (cs : List Char) : Option Nat :=
  if mon.isPrefixOf cs then
    let rest := cs.drop mon.length
    let ws := rest.takeWhile isPySpace
    if ws.length = 0 then none
    else
      match rest.drop ws.length with
      | d1 :: d2 :: _ =>
          if d1.isDigit then
            if d2.isDigit then some (digitVal d1 * 10 + digitVal d2) else some (digitVal d1)
          else none
      | [d1] => if d1.isDigit then some (digitVal d1) else none
      | [] => none
  else none

/-- `re.search` semantics for the month-day pattern: try every position left to
right and return the first match's day number. -/
def searchMonthDay (mon : List Char) : List Char → Option Nat
  | [] => none
  | c :: rest =>
      match monthDayAt mon (c :: rest) with
      | some n => some n
      | none => searchMonthDay mon rest

/-- The literal part of the blob pattern
`window\.calendarComponentStates\[1\]\s*=\s*(\x7b.*?\x7d);`. -/
def litCal : List Char :=
  "window.calendarComponentStates[1]".toList

/-- Lazy scan for the first closing brace that is immediately followed by a
semicolon (the `.*?\x7d);` tail of the blob pattern, under `re.DOTALL`); returns the
characters before that brace. -/
def findCloseBrace : List Char → Option (List Char)
  | '}' :: ';' :: _ => some []
  | c :: rest => (findCloseBrace rest).map (fun l => c :: l)
  | [] => none

/-- One attempt of the blob regex at a fixed position; the captured group is the
brace-delimited object text. -/
def matchBlobAt (s : List Char) : Option (List Char) :=
  if litCal.isPrefixOf s then
    match (s.drop litCal.length).dropWhile isPySpace with
    | '=' :: r2 =>
        match r2.dropWhile isPySpace with
        | '{' :: r3 => (findCloseBrace r3).map (fun mid => '{' :: (mid ++ ['}']))
        | _ => none
    | _ => none
  else none

/-- `re.search` for the blob pattern: first position where it matches. -/
def searchBlob : List Char → Option (List Char)
  | [] => none
  | c :: rest =>
      match matchBlobAt (c :: rest) with
      | some js => some js
      | none => searchBlob rest

/-- Literal `"id":` of the pair pattern. -/
def litId : List Char :=
  "\"id\":".toList

/-- Literal `"impactTitle":"` of the pair pattern. -/
def litImpact : List Char :=
  "\"impactTitle\":\"".toList

/-- The lazy `[^\x7d]*?` segment of the pair pattern: consume characters other than
a closing brace until the `"impactTitle":"` literal matches. -/
def scanToImpact : List Char → Option (List Char)
  | [] => none
  | c :: rest =>
      if litImpact.isPrefixOf (c :: rest) then some ((c :: rest).drop litImpact.length)
      else if c == '}' then none
      else scanToImpact rest

/-- One attempt of `"id":(\d+)[^\x7d]*?"impactTitle":"([^"]+)"` at a fixed position;
on success returns both captured groups and the remainder after the match. -/
def matchPairAt (s : List Char) : Option (String × String × List Char) :=
  if litId.isPrefixOf s then
    let r1 := s.drop litId.length
    let ds := r1.takeWhile Char.isDigit
    if ds.length = 0 then none
    else
      match scanToImpact (r1.drop ds.length) with
      | none => none
      | some r2 =>
          let lbl := r2.takeWhile (fun c => c != '"')
          if lbl.length = 0 then none
          else
            match r2.drop lbl.length with
            | '"' :: r3 => some (ds.asString, lbl.asString, r3)
            | _ => none
  else none

/-- `re.findall` for the pair pattern: non-overlapping matches, scanning left to
right and resuming after each match's end.  The fuel argument is an upper bound
on the number of scanning steps (each step strictly shortens the input). -/
def findPairsAux : Nat → List Char → List (String × String)
  | 0, _ => []
  | _ + 1, [] => []
  | fuel + 1, c :: rest =>
      match matchPairAt (c :: rest) with
      | some (i, l, rem) => (i, l) :: findPairsAux fuel rem
      | none => findPairsAux fuel rest

/-- All `(event id, impact title)` pairs of a blob, in match order. -/
def findPairs (js : List Char) : List (String × String) :=
  findPairsAux (js.length + 1) js

/-- Python `dict` assignment `m[k] = v`: replaces an existing binding, else
appends (insertion order preserved). -/
def dictInsert (m : List (String × String)) (k v : String) : List (String × String) :=
  if m.any (fun p => p.1 == k) then m.map (fun p => if p.1 == k then (k, v) else p)
  else m ++ [(k, v)]

/-- Python `dict` lookup without default. -/
def dictFind (m : List (String × String)) (k : String) : Option String :=
  (m.find? (fun p => p.1 == k)).map (fun p => p.2)

/-- Python `m.get(k, d)`. -/
def dictGet (m : List (String × String)) (k d : String) : String :=
  (dictFind m k).getD d

/-- `extract_json_data` of `html_to_csv.py`: locate the calendar component
blob, collect its `(id, impactTitle)` pairs into a mapping; an absent blob (or
absent pairs) yields the empty mapping. -/
def extract_json_data (html : String) : List (String × String) :=
  match searchBlob html.toList with
  | none => []
  | some js => (findPairs js).foldl (fun m p => dictInsert m p.1 p.2) []

/-- A calendar table row as seen by the classifier: its `class` list, its
flattened text (for day-breaker matching), its `td` cell texts, and its
`data-event-id` attribute (empty when absent). -/
structure Row where
  classes : List String
  text : String
  cells : List String
  eventId : String
deriving DecidableEq, Repr

/-- The two mutable loop variables of `parse_calendar_html`: `current_day`
(day-of-month of the active day anchor) and `last_clock_time`. -/
structure ParseState where
  currentDay : Option Nat
  lastClockTime : Option (Nat × Nat)
deriving DecidableEq, Repr

/-- The positional fields read from a data row (each already `.strip()`ped). -/
structure RowFields where
  time : String
  currency : String
  event : String
  detail : String
  actual : String
  forecast : String
  previous : String
deriving DecidableEq, Repr

/-- One output record of the scrapers. -/
structure EventRecord where
  dateTime : String
  currency : String
  impact : String
  event : String
  actual : String
  forecast : String
  previous : String
  detail : String
deriving DecidableEq, Repr

/-- The day-breaker CSS class tested by the classifier. -/
def dayBreakerClass : String :=
  "calendar__row--day-breaker"

/-- The new-day CSS class tested for layout selection. -/
def newDayClass : String :=
  "calendar__row--new-day"

/-- The fallback impact label (`impact_map.get(event_id, "Low Impact Expected")`). -/
def lowDefault : String :=
  "Low Impact Expected"

/-- Layout selection of `parse_calendar_html`:
`len(cells) == 11 or "calendar__row--new-day" in row.get("class", [])`. -/
def hasDateColumn (row : Row) : Bool :=
  row.cells.length == 11 || row.classes.contains newDayClass

/-- Positional field extraction; an out-of-range index models the `IndexError`
caught by the enclosing `try`, which skips the row. -/
def extractFields (hasDateCol : Bool) (cells : List String) : Option RowFields :=
  if hasDateCol then
    match cells[1]?, cells[2]?, cells[4]?, cells[6]?, cells[7]?, cells[8]?, cells[9]? with
    | some t, some c, some e, some d, some a, some fc, some p =>
        some ⟨pyStrip t, pyStrip c, pyStrip e, pyStrip d, pyStrip a, pyStrip fc, pyStrip p⟩
    | _, _, _, _, _, _, _ => none
  else
    match cells[0]?, cells[1]?, cells[3]?, cells[5]?, cells[6]?, cells[7]?, cells[8]? with
    | some t, some c, some e, some d, some a, some fc, some p =>
        some ⟨pyStrip t, pyStrip c, pyStrip e, pyStrip d, pyStrip a, pyStrip fc, pyStrip p⟩
    | _, _, _, _, _, _, _ => none

/-- Error raised by `datetime.replace` on an out-of-range hour or minute. -/
def valueError : String :=
  "ValueError: hour or minute out of range"

/-- Lines 149-175 of `parse_calendar_html`: resolve a data row's time-of-day and
the updated `last_clock_time`, materialising an unset carry as `(0, 0)` first,
exactly as the source does.  `datetime.replace` validation is the range check;
its failure is the uncaught `ValueError`. -/
def timeResolution (timeText : String) (carry : Option (Nat × Nat)) :
    Except String ((Nat × Nat) × (Nat × Nat)) :=
  let carry0 := carry.getD (0, 0)
  if timeText ≠ "" ∧ timeText ≠ "All Day" ∧ timeText ≠ "Tentative" then
    match matchTimeLabel (pyLower timeText) with
    | some (h, m, ampm) =>
        let hh := convert_to_24h h ampm
        if hh ≤ 23 ∧ m ≤ 59 then .ok ((hh, m), (hh, m)) else .error valueError
    | none =>
        if carry0.1 ≤ 23 ∧ carry0.2 ≤ 59 then .ok (carry0, carry0) else .error valueError
  else if timeText = "All Day" then .ok ((0, 0), (0, 0))
  else
    if carry0.1 ≤ 23 ∧ carry0.2 ≤ 59 then .ok (carry0, carry0) else .error valueError

/-- Assemble the output record (`data_list.append(...)` of `parse_calendar_html`). -/
def pad2 (n : Nat) : String :=
  if n < 10 then "0" ++ toString n else toString n

/-- Four-digit year padding of `datetime.isoformat`. -/
def pad4 (n : Nat) : String :=
  if n < 10 then "000" ++ toString n
  else if n < 100 then "00" ++ toString n
  else if n < 1000 then "0" ++ toString n
  else toString n

/-- `datetime.isoformat()` of the event datetime, up to but excluding the fixed
UTC offset suffix. -/
def isoMain (y mo d h mi : Nat) : String :=
  pad4 y ++ "-" ++ pad2 mo ++ "-" ++ pad2 d ++ "T" ++ pad2 h ++ ":" ++ pad2 mi ++ ":00"

/-- `event_dt.isoformat()` for a second-aligned datetime carrying the fixed
`timezone(timedelta(hours=-8))` offset. -/
def isoFormat (y mo d h mi : Nat) : String :=
  isoMain y mo d h mi ++ "-08:00"

/-- The record appended for a data row. -/
def mkRecord (y mo d hh mm : Nat) (f : RowFields) (impact : String) : EventRecord :=
  { dateTime := isoFormat y mo d hh mm
    currency := f.currency
    impact := impact
    event := f.event
    actual := f.actual
    forecast := f.forecast
    previous := f.previous
    detail := f.detail }

/-- One iteration of the row loop of `parse_calendar_html` (`html_to_csv.py`,
lines 77-191): day-breaker handling, skip rules, layout selection, field
extraction, impact lookup, time resolution and record construction. -/
def stepRow (im : List (String × String)) (year month : Nat) (st : ParseState)
    (row : Row) : Except String (ParseState × Option EventRecord) :=
  if row.classes.contains dayBreakerClass then
    match searchMonthDay (monthAbbrev month).toList (pyStrip row.text).toList with
    | some dayNum =>
        if 1 ≤ dayNum ∧ dayNum ≤ daysInMonth year month then
          .ok ({ currentDay := some dayNum, lastClockTime := none }, none)
        else
          .ok ({ currentDay := none, lastClockTime := st.lastClockTime }, none)
    | none => .ok (st, none)
  else
    match st.currentDay with
    | none => .ok (st, none)
    | some day =>
        if row.cells.length < 5 then .ok (st, none)
        else
          match extractFields (hasDateColumn row) row.cells with
          | none => .ok (st, none)
          | some f =>
              if f.event = "" then .ok (st, none)
              else
                match timeResolution f.time st.lastClockTime with
                | .error e => .error e
                | .ok (t, c) =>
                    .ok ({ currentDay := some day, lastClockTime := some c },
                         some (mkRecord year month day t.1 t.2 f
                                 (dictGet im row.eventId lowDefault)))

/-- The row loop folded over a whole document, from the fresh state
(`current_day = None`, `last_clock_time = None`); an uncaught exception aborts
the document. -/
def processRowsAux (im : List (String × String)) (year month : Nat) :
    ParseState → List EventRecord → List Row → Except String (List EventRecord)
  | _, acc, [] => .ok acc
  | st, acc, r :: rs =>
      match stepRow im year month st r with
      | .error e => .error e
      | .ok (st', none) => processRowsAux im year month st' acc rs
      | .ok (st', some rec) => processRowsAux im year month st' (acc ++ [rec]) rs

/-- `parse_calendar_html`'s row loop on a given row list and impact map. -/
def processRows (im : List (String × String)) (year month : Nat) (rows : List Row) :
    Except String (List EventRecord) :=
  processRowsAux im year month { currentDay := none, lastClockTime := none } [] rows

/-- `parse_time_label` of `extract_html_to_csv.py`, reduced to the
`(hour, minute)` it writes into the base date (`ValueError` from
`datetime.replace` modelled as an error). -/
def parse_time_label (timeLabel : String) : Except String (Nat × Nat) :=
  if timeLabel = "" ∨ timeLabel ∈ ["All Day", "Tentative", "Day 1", "Day 2", "Day 3"] then
    .ok (0, 0)
  else
    match matchTimeLabel (pyLower timeLabel) with
    | some (h, m, ampm) =>
        let hh := convert_to_24h h ampm
        if hh ≤ 23 ∧ m ≤ 59 then .ok (hh, m) else .error valueError
    | none => .ok (0, 0)

/-- A carry whose materialised value survives `datetime.replace` validation. -/
def validClock (o : Option (Nat × Nat)) : Prop :=
  (o.getD (0, 0)).1 ≤ 23 ∧ (o.getD (0, 0)).2 ≤ 59

/-! Concrete fixtures used by witnesses and counterexamples. -/

/-- A layout-B data row whose time label is `5:30PM`. -/
def c1row : Row :=
  { classes := [], text := "",
    cells := ["5:30PM", "USD", "x", "CPI", "sub", "det", "a", "fc", "p", "g"],
    eventId := "" }

/-- The fields extracted from `c1row`. -/
def c1fields : RowFields :=
  { time := "5:30PM", currency := "USD", event := "CPI", detail := "det",
    actual := "a", forecast := "fc", previous := "p" }

/-- A layout-B data row whose nonempty time label matches no time pattern. -/
def c2row : Row :=
  { classes := [], text := "",
    cells := ["data?", "USD", "x", "CPI", "sub", "det", "a", "fc", "p", "g"],
    eventId := "" }

/-- The fields extracted from `c2row`. -/
def c2fields : RowFields :=
  { time := "data?", currency := "USD", event := "CPI", detail := "det",
    actual := "a", forecast := "fc", previous := "p" }

/-- The record emitted for `c2row` from an unset carry. -/
def c2rec : EventRecord :=
  { dateTime := "2025-06-05T00:00:00-08:00", currency := "USD",
    impact := "Low Impact Expected", event := "CPI", actual := "a",
    forecast := "fc", previous := "p", detail := "det" }

/-- A layout-B data row with an empty time label. -/
def c3row : Row :=
  { classes := [], text := "",
    cells := ["", "USD", "x", "CPI", "sub", "det", "a", "fc", "p", "g"],
    eventId := "" }

/-- The record emitted for `c3row` when the carry is 17:00. -/
def c3rec : EventRecord :=
  { dateTime := "2025-06-05T17:00:00-08:00", currency := "USD",
    impact := "Low Impact Expected", event := "CPI", actual := "a",
    forecast := "fc", previous := "p", detail := "det" }

/-- A day-breaker row carrying a parseable `Jun 5` date. -/
def c4row1 : Row :=
  { classes := ["calendar__row--day-breaker"], text := "Thu Jun 5", cells := [], eventId := "" }

/-- A day-breaker row whose text contains no month-day pattern at all. -/
def c4row2 : Row :=
  { classes := ["calendar__row--day-breaker"], text := "no date here", cells := [], eventId := "" }

/-- A well-formed layout-B data row. -/
def c4row3 : Row :=
  { classes := [], text := "",
    cells := ["5:00pm", "USD", "x", "CPI", "sub", "det", "a", "fc", "p", "g"],
    eventId := "" }

/-- The record emitted for `c4row3` on Jun 5. -/
def c4rec : EventRecord :=
  { dateTime := "2025-06-05T17:00:00-08:00", currency := "USD",
    impact := "Low Impact Expected", event := "CPI", actual := "a",
    forecast := "fc", previous := "p", detail := "det" }

/-- A day-breaker row whose matched day number (31) is not a valid June date. -/
def c4breakerBad : Row :=
  { classes := ["calendar__row--day-breaker"], text := "Mon Jun 31", cells := [], eventId := "" }

/-- A data row with fewer than five cells. -/
def c4rowSmall : Row :=
  { classes := [], text := "", cells := ["5:00pm", "USD"], eventId := "" }

/-- A data row whose event-name cell is blank after trimming. -/
def c4rowNoEvent : Row :=
  { classes := [], text := "",
    cells := ["5:00pm", "USD", "x", "  ", "sub", "det", "a", "fc", "p", "g"],
    eventId := "" }

/-- An 11-cell layout-A data row. -/
def c5rowA : Row :=
  { classes := [], text := "",
    cells := ["Jun 5", "8:30am", "EUR", "x", "GDP", "sub", "detA", "aA", "fA", "pA", "g"],
    eventId := "" }

/-- A 10-cell layout-B data row. -/
def c5rowB : Row :=
  { classes := [], text := "",
    cells := ["8:30am", "EUR", "x", "GDP", "sub", "detB", "aB", "fB", "pB", "g"],
    eventId := "" }

/-- A layout-B data row used to witness the timestamp format. -/
def c6row : Row :=
  { classes := [], text := "",
    cells := ["5:00pm", "USD", "x", "CPI", "sub", "det", "a", "fc", "p", "g"],
    eventId := "" }

/-- The fields extracted from `c6row`. -/
def c6fields : RowFields :=
  { time := "5:00pm", currency := "USD", event := "CPI", detail := "det",
    actual := "a", forecast := "fc", previous := "p" }

/-- The record emitted for `c6row` on Jun 5. -/
def c6rec : EventRecord :=
  { dateTime := "2025-06-05T17:00:00-08:00", currency := "USD",
    impact := "Low Impact Expected", event := "CPI", actual := "a",
    forecast := "fc", previous := "p", detail := "det" }

/-- A data row whose event id `777` is not bound in the (empty) impact map. -/
def c7row : Row :=
  { classes := [], text := "",
    cells := ["5:00pm", "USD", "x", "CPI", "sub", "det", "a", "fc", "p", "g"],
    eventId := "777" }

/-- The record emitted for `c7row` with the default impact label. -/
def c7rec : EventRecord :=
  { dateTime := "2025-06-05T17:00:00-08:00", currency := "USD",
    impact := "Low Impact Expected", event := "CPI", actual := "a",
    forecast := "fc", previous := "p", detail := "det" }

/-- A data row whose time label `9:75pm` matches the time pattern with an
out-of-range minute. -/
def c10row : Row :=
  { classes := [], text := "",
    cells := ["9:75pm", "USD", "x", "CPI", "sub", "det", "a", "fc", "p", "g"],
    eventId := "" }

/-! Helper lemmas shared by the claim theorems. -/

/-- A successful time match keeps the hour and reports an `am`/`pm` suffix. -/
theorem afterColon_spec {h : Nat} {l : List Char} {h' m : Nat} {a : String}
    (he : afterColon h l = some (h', m, a)) : h' = h ∧ (a = "am" ∨ a = "pm") := by
  unfold afterColon at he
  split at he
  · split_ifs at he <;> simp_all
  · simp at he

/-- The suffix group of the time regex is always `am` or `pm`. -/
theorem matchTimeLabel_suffix {s : String} {h m : Nat} {a : String}
    (he : matchTimeLabel s = some (h, m, a)) : a = "am" ∨ a = "pm" := by
  unfold matchTimeLabel matchTimeAux at he
  split at he
  · split_ifs at he <;> exact (afterColon_spec he).2
  · simp at he

/-- The 12→24 conversion never leaves the valid hour range on hours up to 12. -/
theorem convert_to_24h_le {h : Nat} (a : String) (hh : h ≤ 12) :
    convert_to_24h h a ≤ 23 := by
  unfold convert_to_24h
  split_ifs <;> omega

/-- Unfolding of `timeResolution` on a label that matches the time regex. -/
theorem timeResolution_parsed {timeText : String} {carry : Option (Nat × Nat)}
    {h m : Nat} {ampm : String}
    (hne : timeText ≠ "" ∧ timeText ≠ "All Day" ∧ timeText ≠ "Tentative")
    (hm : matchTimeLabel (pyLower timeText) = some (h, m, ampm))
    (hhle : convert_to_24h h ampm ≤ 23) (hmle : m ≤ 59) :
    timeResolution timeText carry =
      .ok ((convert_to_24h h ampm, m), (convert_to_24h h ampm, m)) := by
  unfold timeResolution
  rw [if_pos hne, hm]
  simp [hhle, hmle]

/-- Unfolding of `timeResolution` on a present label that fails the time regex. -/
theorem timeResolution_unparsed {timeText : String} {carry : Option (Nat × Nat)}
    (hne : timeText ≠ "" ∧ timeText ≠ "All Day" ∧ timeText ≠ "Tentative")
    (hm : matchTimeLabel (pyLower timeText) = none)
    (hv : validClock carry) :
    timeResolution timeText carry = .ok (carry.getD (0, 0), carry.getD (0, 0)) := by
  unfold timeResolution
  rw [if_pos hne, hm]
  simp [validClock] at hv
  simp [hv.1, hv.2]

/-- Unfolding of `timeResolution` on an empty or `Tentative` label. -/
theorem timeResolution_fallback {timeText : String} {carry : Option (Nat × Nat)}
    (hc : timeText = "" ∨ timeText = "Tentative")
    (hv : validClock carry) :
    timeResolution timeText carry = .ok (carry.getD (0, 0), carry.getD (0, 0)) := by
  unfold timeResolution
  simp [validClock] at hv
  rcases hc with hc | hc <;> subst hc <;> simp [hv.1, hv.2]

/-- Unfolding of `timeResolution` on the `All Day` label. -/
theorem timeResolution_allday (carry : Option (Nat × Nat)) :
    timeResolution "All Day" carry = .ok ((0, 0), (0, 0)) := by
  unfold timeResolution
  simp

/-- Constructive unfolding of `stepRow` on a record-emitting data row. -/
theorem stepRow_emit (im : List (String × String)) (year month : Nat) (st : ParseState)
    (row : Row) (day : Nat) (f : RowFields) (t c : Nat × Nat)
    (hnb : row.classes.contains dayBreakerClass = false)
    (hday : st.currentDay = some day)
    (hlen : ¬ row.cells.length < 5)
    (hf : extractFields (hasDateColumn row) row.cells = some f)
    (hev : ¬ f.event = "")
    (ht : timeResolution f.time st.lastClockTime = .ok (t, c)) :
    stepRow im year month st row =
      .ok ({ currentDay := some day, lastClockTime := some c },
        some (mkRecord year month day t.1 t.2 f (dictGet im row.eventId lowDefault))) := by
  unfold stepRow
  rw [hnb, hday]
  simp only [Bool.false_eq_true, if_false]
  rw [if_neg hlen, hf]
  simp only []
  rw [if_neg hev, ht]

/-- Inversion of `stepRow` on any record-emitting run. -/
theorem stepRow_emit_inv {im : List (String × String)} {year month : Nat}
    {st st' : ParseState} {row : Row} {rec : EventRecord}
    (h : stepRow im year month st row = .ok (st', some rec)) :
    ∃ day f t c,
      st.currentDay = some day ∧
      extractFields (hasDateColumn row) row.cells = some f ∧
      timeResolution f.time st.lastClockTime = .ok (t, c) ∧
      st' = { currentDay := some day, lastClockTime := some c } ∧
      rec = mkRecord year month day t.1 t.2 f (dictGet im row.eventId lowDefault) := by
  unfold stepRow at h
  split at h
  · split at h
    · split at h <;> simp at h
    · simp at h
  · split at h
    · simp at h
    · rename_i day hday
      split at h
      · simp at h
      · split at h
        · simp at h
        · rename_i f hf
          split at h
          · simp at h
          · split at h
            · simp at h
            · rename_i t c ht
              obtain ⟨h1, h2⟩ := by simpa using h
              exact ⟨day, f, t, c, hday, hf, ht, h1.symm, h2.symm⟩

/-- A list index below the length reads back through `getD`. -/
theorem getq_eq_getD (l : List String) (i : Nat) (h : i < l.length) :
    l[i]? = some (l.getD i "") := by
  rw [List.getElem?_eq_getElem h, List.getD_eq_getElem l "" h]

/-- Field extraction with a leading date column, spelled with `getD`. -/
theorem extractFields_dateCol (cells : List String) (hlen : 10 ≤ cells.length) :
    extractFields true cells = some
      { time := pyStrip (cells.getD 1 ""), currency := pyStrip (cells.getD 2 ""),
        event := pyStrip (cells.getD 4 ""), detail := pyStrip (cells.getD 6 ""),
        actual := pyStrip (cells.getD 7 ""), forecast := pyStrip (cells.getD 8 ""),
        previous := pyStrip (cells.getD 9 "") } := by
  unfold extractFields
  rw [getq_eq_getD cells 1 (by omega), getq_eq_getD cells 2 (by omega),
    getq_eq_getD cells 4 (by omega), getq_eq_getD cells 6 (by omega),
    getq_eq_getD cells 7 (by omega), getq_eq_getD cells 8 (by omega),
    getq_eq_getD cells 9 (by omega)]
  rfl

/-- Field extraction without a date column, spelled with `getD`. -/
theorem extractFields_noDateCol (cells : List String) (hlen : 9 ≤ cells.length) :
    extractFields false cells = some
      { time := pyStrip (cells.getD 0 ""), currency := pyStrip (cells.getD 1 ""),
        event := pyStrip (cells.getD 3 ""), detail := pyStrip (cells.getD 5 ""),
        actual := pyStrip (cells.getD 6 ""), forecast := pyStrip (cells.getD 7 ""),
        previous := pyStrip (cells.getD 8 "") } := by
  unfold extractFields
  rw [getq_eq_getD cells 0 (by omega), getq_eq_getD cells 1 (by omega),
    getq_eq_getD cells 3 (by omega), getq_eq_getD cells 5 (by omega),
    getq_eq_getD cells 6 (by omega), getq_eq_getD cells 7 (by omega),
    getq_eq_getD cells 8 (by omega)]
  rfl

/-! Claim theorems. -/

set_option maxHeartbeats 1600000 in
/-- C1: for every time label of the form `H:MM` with a case-insensitive `am`/`pm`
suffix, hour in 1..12 and minute in 0..59, the time parser converts it to
24-hour form by the stated bijection (12am→0, 1..11am→1..11, 12pm→12,
1..11pm→13..23), keeps the minute unchanged, and that value becomes both the
row's time-of-day and the new carry time (in `parse_calendar_html`), and the
hour and minute written by `parse_time_label`. -/
theorem c1_valid_time_label_conversion
    (im : List (String × String)) (year month day h m : Nat) (ampm : String)
    (st : ParseState) (row : Row) (f : RowFields)
    (hnb : row.classes.contains dayBreakerClass = false)
    (hday : st.currentDay = some day)
    (hlen : ¬ row.cells.length < 5)
    (hf : extractFields (hasDateColumn row) row.cells = some f)
    (hev : ¬ f.event = "")
    (hne : f.time ≠ "" ∧ f.time ≠ "All Day" ∧ f.time ≠ "Tentative")
    (hm : matchTimeLabel (pyLower f.time) = some (h, m, ampm))
    (hh1 : 1 ≤ h) (hh2 : h ≤ 12) (hm59 : m ≤ 59) :
    (h = 12 → ampm = "am" → convert_to_24h h ampm = 0) ∧
    (h < 12 → ampm = "am" → convert_to_24h h ampm = h) ∧
    (h = 12 → ampm = "pm" → convert_to_24h h ampm = 12) ∧
    (h < 12 → ampm = "pm" → convert_to_24h h ampm = h + 12) ∧
    (∀ h1, h1 < 13 → ∀ h2, h2 < 13 → ∀ a1 ∈ ["am", "pm"], ∀ a2 ∈ ["am", "pm"],
        1 ≤ h1 → 1 ≤ h2 → convert_to_24h h1 a1 = convert_to_24h h2 a2 →
        h1 = h2 ∧ a1 = a2) ∧
    (∀ t, t < 24 → ∃ a ∈ ["am", "pm"],
        ∃ k ∈ [1, 2, 3, 4, 5, 6, 7, 8, 9, 10, 11, 12], convert_to_24h k a = t) ∧
    parse_time_label f.time = .ok (convert_to_24h h ampm, m) ∧
    stepRow im year month st row =
      .ok ({ currentDay := some day, lastClockTime := some (convert_to_24h h ampm, m) },
        some (mkRecord year month day (convert_to_24h h ampm) m f
          (dictGet im row.eventId lowDefault))) := by
  have hle : convert_to_24h h ampm ≤ 23 := convert_to_24h_le ampm hh2
  have hnotday : ¬ (f.time = "" ∨ f.time ∈ ["All Day", "Tentative", "Day 1", "Day 2", "Day 3"]) := by
    rintro (hc | hc)
    · exact hne.1 hc
    · simp at hc
      rcases hc with hc | hc | hc | hc | hc
      · exact hne.2.1 hc
      · exact hne.2.2 hc
      · rw [hc] at hm
        rw [show matchTimeLabel (pyLower "Day 1") = none by decide] at hm
        exact Option.noConfusion hm
      · rw [hc] at hm
        rw [show matchTimeLabel (pyLower "Day 2") = none by decide] at hm
        exact Option.noConfusion hm
      · rw [hc] at hm
        rw [show matchTimeLabel (pyLower "Day 3") = none by decide] at hm
        exact Option.noConfusion hm
  refine ⟨?_, ?_, ?_, ?_, ?_, ?_, ?_, ?_⟩
  · intro h12 ha
    subst h12; subst ha; rfl
  · intro hlt ha
    subst ha
    have hnz : h ≠ 12 := by omega
    simp [convert_to_24h, hnz]
  · intro h12 ha
    subst h12; subst ha; rfl
  · intro hlt ha
    subst ha; simp [convert_to_24h, hlt]
  · intro h1 hb1 h2 hb2 a1 ha1 a2 ha2 h11 h12 heq
    simp at ha1 ha2
    rcases ha1 with rfl | rfl <;> rcases ha2 with rfl | rfl
    · refine ⟨?_, rfl⟩
      simp [convert_to_24h] at heq
      split_ifs at heq <;> omega
    · exfalso
      simp [convert_to_24h] at heq
      split_ifs at heq <;> omega
    · exfalso
      simp [convert_to_24h] at heq
      split_ifs at heq <;> omega
    · refine ⟨?_, rfl⟩
      simp [convert_to_24h] at heq
      split_ifs at heq <;> omega
  · intro t ht
    by_cases h0 : t = 0
    · subst h0
      exact ⟨"am", by simp, 12, by simp, by simp [convert_to_24h]⟩
    by_cases hlt : t < 12
    · refine ⟨"am", by simp, t, by interval_cases t <;> simp_all, ?_⟩
      have hnz : t ≠ 12 := by omega
      simp [convert_to_24h, hnz]
    by_cases h12 : t = 12
    · subst h12
      exact ⟨"pm", by simp, 12, by simp, by simp [convert_to_24h]⟩
    · refine ⟨"pm", by simp, t - 12, by interval_cases t <;> simp_all, ?_⟩
      have hsm : t - 12 < 12 := by omega
      simp [convert_to_24h, hsm]
      omega
  · unfold parse_time_label
    rw [if_neg hnotday, hm]
    simp [hle, hm59]
  · have ht := @timeResolution_parsed f.time st.lastClockTime h m ampm hne hm hle hm59
    exact stepRow_emit im year month st row day f (convert_to_24h h ampm, m)
      (convert_to_24h h ampm, m) hnb hday hlen hf hev ht

/-- Witness for C1 at the concrete label `5:30PM`. -/
theorem c1_witness :
    parse_time_label "5:30PM" = .ok (17, 30) ∧
    stepRow [] 2025 6 { currentDay := some 5, lastClockTime := none } c1row =
      .ok ({ currentDay := some 5, lastClockTime := some (17, 30) },
        some (mkRecord 2025 6 5 17 30 c1fields (dictGet [] "" lowDefault))) := by
  have hc := c1_valid_time_label_conversion [] 2025 6 5 5 30 "pm"
    { currentDay := some 5, lastClockTime := none } c1row c1fields
    rfl rfl (by decide) rfl (by decide) (by decide) (by decide)
    (by decide) (by decide) (by decide)
  exact ⟨hc.2.2.2.2.2.2.1, hc.2.2.2.2.2.2.2⟩

/-- C2 (amended): a data row whose time label is present but fails the
`H:MM(am|pm)` pattern resolves to the current carry time, or to `(0, 0)` when no
time has been parsed since the last day boundary; an already-set carry is never
changed by such a row, while an unset carry is materialised as `(0, 0)`
(observationally equivalent to remaining unset). -/
theorem c2_unparseable_label_fallback
    (im : List (String × String)) (year month day : Nat)
    (st : ParseState) (row : Row) (f : RowFields)
    (hnb : row.classes.contains dayBreakerClass = false)
    (hday : st.currentDay = some day)
    (hlen : ¬ row.cells.length < 5)
    (hf : extractFields (hasDateColumn row) row.cells = some f)
    (hev : ¬ f.event = "")
    (hne : f.time ≠ "" ∧ f.time ≠ "All Day" ∧ f.time ≠ "Tentative")
    (hm : matchTimeLabel (pyLower f.time) = none)
    (hv : validClock st.lastClockTime) :
    stepRow im year month st row =
      .ok ({ currentDay := some day,
             lastClockTime := some (st.lastClockTime.getD (0, 0)) },
        some (mkRecord year month day (st.lastClockTime.getD (0, 0)).1
          (st.lastClockTime.getD (0, 0)).2 f (dictGet im row.eventId lowDefault))) ∧
    (∀ p : Nat × Nat, st.lastClockTime = some p →
        some (st.lastClockTime.getD (0, 0)) = some p) := by
  constructor
  · have ht := @timeResolution_unparsed f.time st.lastClockTime hne hm hv
    exact stepRow_emit im year month st row day f (st.lastClockTime.getD (0, 0))
      (st.lastClockTime.getD (0, 0)) hnb hday hlen hf hev ht
  · intro p hp
    rw [hp]
    rfl

/-- Witness for C2 (amended) with an already-set carry of 3:15. -/
theorem c2_witness :
    stepRow [] 2025 6 { currentDay := some 5, lastClockTime := some (3, 15) } c2row =
      .ok ({ currentDay := some 5, lastClockTime := some (3, 15) },
        some (mkRecord 2025 6 5 3 15 c2fields (dictGet [] "" lowDefault))) := by
  have hc := c2_unparseable_label_fallback [] 2025 6 5
    { currentDay := some 5, lastClockTime := some (3, 15) } c2row c2fields
    rfl rfl (by decide) rfl (by decide) (by decide) (by decide) (by simp [validClock])
  exact hc.1

/-- Counterexample to C2 as stated: from an unset carry, a present-but-unparseable
time label leaves the classifier with carry `some (0, 0)`, not the unchanged
`none`, so the carry variable is written by such a row. -/
theorem c2_counterexample :
    stepRow [] 2025 6 { currentDay := some 5, lastClockTime := none } c2row =
      .ok ({ currentDay := some 5, lastClockTime := some (0, 0) }, some c2rec) ∧
    some (0, 0) ≠ (none : Option (Nat × Nat)) := by
  exact ⟨rfl, by decide⟩

/-- C3 (amended): in `parse_time_label` (the JSON-based extractor) the labels
empty, `All Day`, `Tentative`, `Day 1`, `Day 2`, `Day 3` all resolve to
00:00:00 (that script keeps no carry state); in `parse_calendar_html` only
`All Day` resolves to 00:00:00 and overwrites the carry with `(0, 0)`, while
empty, `Tentative` and `Day N` labels resolve to the current carry time (or
`(0, 0)` when unset) and leave its resolved value unchanged. -/
theorem c3_special_labels :
    (∀ l ∈ ["", "All Day", "Tentative", "Day 1", "Day 2", "Day 3"],
        parse_time_label l = .ok (0, 0)) ∧
    (∀ carry : Option (Nat × Nat), timeResolution "All Day" carry = .ok ((0, 0), (0, 0))) ∧
    (∀ carry : Option (Nat × Nat), validClock carry →
        timeResolution "" carry = .ok (carry.getD (0, 0), carry.getD (0, 0))) ∧
    (∀ carry : Option (Nat × Nat), validClock carry →
        timeResolution "Tentative" carry = .ok (carry.getD (0, 0), carry.getD (0, 0))) ∧
    (∀ l ∈ ["Day 1", "Day 2", "Day 3"], ∀ carry : Option (Nat × Nat), validClock carry →
        timeResolution l carry = .ok (carry.getD (0, 0), carry.getD (0, 0))) := by
  refine ⟨?_, timeResolution_allday, ?_, ?_, ?_⟩
  · intro l hl
    fin_cases hl <;> rfl
  · intro carry hv
    exact timeResolution_fallback (Or.inl rfl) hv
  · intro carry hv
    exact timeResolution_fallback (Or.inr rfl) hv
  · intro l hl carry hv
    fin_cases hl
    · exact timeResolution_unparsed (by decide) (by decide) hv
    · exact timeResolution_unparsed (by decide) (by decide) hv
    · exact timeResolution_unparsed (by decide) (by decide) hv

/-- Witness for C3 (amended) at `All Day` and `Day 2`. -/
theorem c3_witness :
    parse_time_label "All Day" = .ok (0, 0) ∧
    timeResolution "All Day" (some (17, 0)) = .ok ((0, 0), (0, 0)) ∧
    timeResolution "Day 2" (some (9, 30)) = .ok ((9, 30), (9, 30)) := by
  refine ⟨c3_special_labels.1 "All Day" (by simp), c3_special_labels.2.1 (some (17, 0)), ?_⟩
  exact c3_special_labels.2.2.2.2 "Day 2" (by simp) (some (9, 30)) (by simp [validClock])

/-- Counterexample to C3 as stated: in `parse_calendar_html` a data row with an
empty time label and a carry of 17:00 resolves to 17:00:00, not 00:00:00, and
the carry is not set to `(0, 0)`. -/
theorem c3_counterexample :
    stepRow [] 2025 6 { currentDay := some 5, lastClockTime := some (17, 0) } c3row =
      .ok ({ currentDay := some 5, lastClockTime := some (17, 0) }, some c3rec) ∧
    c3rec.dateTime = "2025-06-05T17:00:00-08:00" ∧
    "2025-06-05T17:00:00-08:00" ≠ isoFormat 2025 6 5 0 0 := by
  exact ⟨rfl, rfl, by decide⟩

/-- C4 (amended): a row produces no record whenever the day anchor is unset, the
row has fewer than five cells, or its extracted event-name field is empty after
trimming; a day-breaker row whose matched day number does not form a valid date
unsets the day anchor (so following data rows are skipped until the next valid
boundary), while a day-breaker row in which no month-day pattern is found at
all leaves the previous day anchor in place. -/
theorem c4_skip_rules
    (im : List (String × String)) (year month : Nat) (st : ParseState) (row : Row) :
    (st.currentDay = none →
        (stepRow im year month st row).map (fun p => p.2) = .ok none) ∧
    (st.currentDay = none → row.classes.contains dayBreakerClass = false →
        stepRow im year month st row = .ok (st, none)) ∧
    (row.classes.contains dayBreakerClass = false → row.cells.length < 5 →
        stepRow im year month st row = .ok (st, none)) ∧
    (row.classes.contains dayBreakerClass = false → ¬ row.cells.length < 5 →
        ∀ f, extractFields (hasDateColumn row) row.cells = some f → f.event = "" →
          stepRow im year month st row = .ok (st, none)) ∧
    (row.classes.contains dayBreakerClass = true →
        ∀ n, searchMonthDay (monthAbbrev month).toList (pyStrip row.text).toList = some n →
          ¬ (1 ≤ n ∧ n ≤ daysInMonth year month) →
          stepRow im year month st row =
            .ok ({ currentDay := none, lastClockTime := st.lastClockTime }, none)) ∧
    (row.classes.contains dayBreakerClass = true →
        searchMonthDay (monthAbbrev month).toList (pyStrip row.text).toList = none →
          stepRow im year month st row = .ok (st, none)) := by
  refine ⟨?_, ?_, ?_, ?_, ?_, ?_⟩
  · intro hdnone
    unfold stepRow
    rw [hdnone]
    split
    · split
      · split <;> rfl
      · rfl
    · rfl
  · intro hdnone hnb
    unfold stepRow
    rw [hdnone, hnb]
    rfl
  · intro hnb hsmall
    unfold stepRow
    rw [hnb]
    simp only [Bool.false_eq_true, if_false]
    cases hd : st.currentDay with
    | none => rfl
    | some day => simp [hsmall]
  · intro hnb hbig f hf hev
    unfold stepRow
    rw [hnb]
    simp only [Bool.false_eq_true, if_false]
    cases hd : st.currentDay with
    | none => rfl
    | some day => simp [hbig, hf, hev]
  · intro hb n hsm hinv
    unfold stepRow
    rw [hb, hsm]
    simp only [if_true]
    rw [if_neg hinv]
  · intro hb hsm
    unfold stepRow
    rw [hb, hsm]
    rfl

/-- Witness for C4 (amended): unset anchor, short row, blank event name, invalid
day number and absent day number, each at a concrete input. -/
theorem c4_witness :
    (stepRow [] 2025 6 { currentDay := none, lastClockTime := none } c4row3).map
        (fun p => p.2) = .ok none ∧
    stepRow [] 2025 6 { currentDay := some 5, lastClockTime := none } c4rowSmall =
      .ok ({ currentDay := some 5, lastClockTime := none }, none) ∧
    stepRow [] 2025 6 { currentDay := some 5, lastClockTime := none } c4rowNoEvent =
      .ok ({ currentDay := some 5, lastClockTime := none }, none) ∧
    stepRow [] 2025 6 { currentDay := some 5, lastClockTime := some (3, 4) } c4breakerBad =
      .ok ({ currentDay := none, lastClockTime := some (3, 4) }, none) := by
  refine ⟨?_, ?_, ?_, ?_⟩
  · exact (c4_skip_rules [] 2025 6 { currentDay := none, lastClockTime := none } c4row3).1 rfl
  · exact (c4_skip_rules [] 2025 6 { currentDay := some 5, lastClockTime := none }
      c4rowSmall).2.2.1 rfl (by decide)
  · exact (c4_skip_rules [] 2025 6 { currentDay := some 5, lastClockTime := none }
      c4rowNoEvent).2.2.2.1 rfl (by decide) _ rfl rfl
  · exact (c4_skip_rules [] 2025 6 { currentDay := some 5, lastClockTime := some (3, 4) }
      c4breakerBad).2.2.2.2.1 rfl 31 rfl (by decide)

/-- Counterexample to C4 as stated: a day-breaker row containing no parseable
day number at all does not unset the day anchor, and a data row after it is
still emitted against the previous anchor instead of being skipped. -/
theorem c4_counterexample :
    processRows [] 2025 6 [c4row1, c4row2, c4row3] = .ok [c4rec] ∧
    stepRow [] 2025 6 { currentDay := some 5, lastClockTime := none } c4row2 =
      .ok ({ currentDay := some 5, lastClockTime := none }, none) ∧
    (some 5 : Option Nat) ≠ none := by
  exact ⟨rfl, rfl, by decide⟩

/-- C5: a data row's layout is chosen by cell count (11 cells, or an explicit
new-day class, selects layout A; otherwise layout B), and the emitted record's
fields are read at the fixed offsets time 1, currency 2, event 4, detail 6,
actual 7, forecast 8, previous 9 (layout A) respectively time 0, currency 1,
event 3, detail 5, actual 6, forecast 7, previous 8 (layout B). -/
theorem c5_layout_offsets
    (im : List (String × String)) (year month day : Nat) (st : ParseState) (row : Row)
    (t c : Nat × Nat)
    (hnb : row.classes.contains dayBreakerClass = false)
    (hday : st.currentDay = some day) :
    ((row.cells.length = 11 ∨ (row.classes.contains newDayClass = true ∧ 10 ≤ row.cells.length)) →
      ¬ pyStrip (row.cells.getD 4 "") = "" →
      timeResolution (pyStrip (row.cells.getD 1 "")) st.lastClockTime = .ok (t, c) →
      stepRow im year month st row =
        .ok ({ currentDay := some day, lastClockTime := some c },
          some { dateTime := isoFormat year month day t.1 t.2
                 currency := pyStrip (row.cells.getD 2 "")
                 impact := dictGet im row.eventId lowDefault
                 event := pyStrip (row.cells.getD 4 "")
                 actual := pyStrip (row.cells.getD 7 "")
                 forecast := pyStrip (row.cells.getD 8 "")
                 previous := pyStrip (row.cells.getD 9 "")
                 detail := pyStrip (row.cells.getD 6 "") })) ∧
    ((¬ row.cells.length = 11 ∧ row.classes.contains newDayClass = false ∧
        9 ≤ row.cells.length) →
      ¬ pyStrip (row.cells.getD 3 "") = "" →
      timeResolution (pyStrip (row.cells.getD 0 "")) st.lastClockTime = .ok (t, c) →
      stepRow im year month st row =
        .ok ({ currentDay := some day, lastClockTime := some c },
          some { dateTime := isoFormat year month day t.1 t.2
                 currency := pyStrip (row.cells.getD 1 "")
                 impact := dictGet im row.eventId lowDefault
                 event := pyStrip (row.cells.getD 3 "")
                 actual := pyStrip (row.cells.getD 6 "")
                 forecast := pyStrip (row.cells.getD 7 "")
                 previous := pyStrip (row.cells.getD 8 "")
                 detail := pyStrip (row.cells.getD 5 "") })) := by
  constructor
  · intro hA hev ht
    have hlen10 : 10 ≤ row.cells.length := by
      rcases hA with h11 | ⟨_, h10⟩
      · omega
      · exact h10
    have hdc : hasDateColumn row = true := by
      unfold hasDateColumn
      rcases hA with h11 | ⟨htag, _⟩
      · simp [h11]
      · have hmem : newDayClass ∈ row.classes := by simpa using htag
        simp [hmem]
    have hf : extractFields (hasDateColumn row) row.cells = some
        { time := pyStrip (row.cells.getD 1 ""), currency := pyStrip (row.cells.getD 2 ""),
          event := pyStrip (row.cells.getD 4 ""), detail := pyStrip (row.cells.getD 6 ""),
          actual := pyStrip (row.cells.getD 7 ""), forecast := pyStrip (row.cells.getD 8 ""),
          previous := pyStrip (row.cells.getD 9 "") } := by
      rw [hdc]
      exact extractFields_dateCol row.cells hlen10
    exact stepRow_emit im year month st row day _ t c hnb hday (by omega) hf hev ht
  · intro hB hev ht
    have hdc : hasDateColumn row = false := by
      have hmem : newDayClass ∉ row.classes := by simpa using hB.2.1
      unfold hasDateColumn
      simp [hB.1, hmem]
    have hf : extractFields (hasDateColumn row) row.cells = some
        { time := pyStrip (row.cells.getD 0 ""), currency := pyStrip (row.cells.getD 1 ""),
          event := pyStrip (row.cells.getD 3 ""), detail := pyStrip (row.cells.getD 5 ""),
          actual := pyStrip (row.cells.getD 6 ""), forecast := pyStrip (row.cells.getD 7 ""),
          previous := pyStrip (row.cells.getD 8 "") } := by
      rw [hdc]
      exact extractFields_noDateCol row.cells hB.2.2
    have hlen5 : ¬ row.cells.length < 5 := by
      have := hB.2.2
      omega
    exact stepRow_emit im year month st row day _ t c hnb hday hlen5 hf hev ht

/-- Witness for C5: an 11-cell row read at the layout-A offsets and a 10-cell
row read at the layout-B offsets. -/
theorem c5_witness :
    stepRow [] 2025 6 { currentDay := some 5, lastClockTime := none } c5rowA =
      .ok ({ currentDay := some 5, lastClockTime := some (8, 30) },
        some { dateTime := "2025-06-05T08:30:00-08:00", currency := "EUR"
               impact := "Low Impact Expected", event := "GDP", actual := "aA"
               forecast := "fA", previous := "pA", detail := "detA" }) ∧
    stepRow [] 2025 6 { currentDay := some 5, lastClockTime := none } c5rowB =
      .ok ({ currentDay := some 5, lastClockTime := some (8, 30) },
        some { dateTime := "2025-06-05T08:30:00-08:00", currency := "EUR"
               impact := "Low Impact Expected", event := "GDP", actual := "aB"
               forecast := "fB", previous := "pB", detail := "detB" }) := by
  constructor
  · exact (c5_layout_offsets [] 2025 6 5 { currentDay := some 5, lastClockTime := none }
      c5rowA (8, 30) (8, 30) rfl rfl).1 (Or.inl rfl) (by decide) rfl
  · exact (c5_layout_offsets [] 2025 6 5 { currentDay := some 5, lastClockTime := none }
      c5rowB (8, 30) (8, 30) rfl rfl).2 (by refine ⟨by decide, rfl, by decide⟩) (by decide) rfl

/-- C6: every emitted record's timestamp is the current day anchor's date
combined with the resolved time-of-day, rendered as an ISO-8601 string carrying
the fixed UTC-8 offset, i.e. ending in the `-08:00` suffix. -/
theorem c6_timestamp_format
    (im : List (String × String)) (year month day : Nat) (st st' : ParseState)
    (row : Row) (rec : EventRecord) (f : RowFields) (t c : Nat × Nat)
    (hday : st.currentDay = some day)
    (hf : extractFields (hasDateColumn row) row.cells = some f)
    (ht : timeResolution f.time st.lastClockTime = .ok (t, c))
    (h : stepRow im year month st row = .ok (st', some rec)) :
    rec.dateTime = isoFormat year month day t.1 t.2 ∧
    rec.dateTime = isoMain year month day t.1 t.2 ++ "-08:00" := by
  obtain ⟨day', f', t', c', hday', hf', ht', hst, hrec⟩ := stepRow_emit_inv h
  rw [hday] at hday'
  injection hday' with hdq
  subst hdq
  rw [hf] at hf'
  injection hf' with hfq
  subst hfq
  rw [ht] at ht'
  injection ht' with htq
  obtain ⟨ht1, ht2⟩ : t = t' ∧ c = c' := by simpa using htq
  subst ht1
  subst ht2
  rw [hrec]
  exact ⟨rfl, rfl⟩

/-- Witness for C6 at a concrete 17:00 row on Jun 5. -/
theorem c6_witness :
    c6rec.dateTime = isoFormat 2025 6 5 17 0 ∧
    c6rec.dateTime = isoMain 2025 6 5 17 0 ++ "-08:00" := by
  exact c6_timestamp_format [] 2025 6 5 { currentDay := some 5, lastClockTime := none }
    { currentDay := some 5, lastClockTime := some (17, 0) } c6row c6rec c6fields
    (17, 0) (17, 0) rfl rfl rfl rfl

/-- C7: the impact-map extractor returns the empty mapping (not an error) when
the embedded blob or its pairs are absent, and a data row whose event id is
missing from the impact map is emitted with the default low-impact label. -/
theorem c7_impact_default :
    (∀ html : String, searchBlob html.toList = none → extract_json_data html = []) ∧
    (∀ (html : String) (js : List Char), searchBlob html.toList = some js →
        findPairs js = [] → extract_json_data html = []) ∧
    (∀ (im : List (String × String)) (year month : Nat) (st st' : ParseState)
        (row : Row) (rec : EventRecord),
        stepRow im year month st row = .ok (st', some rec) →
        dictFind im row.eventId = none → rec.impact = lowDefault) := by
  refine ⟨?_, ?_, ?_⟩
  · intro html hn
    unfold extract_json_data
    rw [hn]
  · intro html js hs hp
    unfold extract_json_data
    rw [hs]
    simp [hp]
  · intro im year month st st' row rec h hmiss
    obtain ⟨day, f, t, c, _, _, _, _, hrec⟩ := stepRow_emit_inv h
    rw [hrec]
    simp [mkRecord, dictGet, hmiss]

/-- Witness for C7: a blob-free document and a concrete impact-map miss. -/
theorem c7_witness :
    extract_json_data "no blob here" = [] ∧ c7rec.impact = lowDefault := by
  constructor
  · exact c7_impact_default.1 "no blob here" rfl
  · exact c7_impact_default.2.2 [] 2025 6 { currentDay := some 5, lastClockTime := none }
      { currentDay := some 5, lastClockTime := some (17, 0) } c7row c7rec rfl rfl

/-- C9: row classification is deterministic and idempotent — two runs of the
classifier over the same row sequence, each from the freshly-built impact map
and the fresh day-anchor and carry state, produce identical record lists,
agreeing at every index. -/
theorem c9_deterministic (html : String) (year month : Nat) (rows : List Row) :
    processRows (extract_json_data html) year month rows =
      processRows (extract_json_data html) year month rows ∧
    ∀ i : Nat,
      ((processRows (extract_json_data html) year month rows).toOption.getD [])[i]? =
      ((processRows (extract_json_data html) year month rows).toOption.getD [])[i]? :=
  ⟨rfl, fun _ => rfl⟩

/-- C10: time reconstruction is not total — a data row whose label matches the
time pattern with an out-of-range minute (`9:75pm`) or hour (`99:00am`) makes
`datetime.replace` raise an uncaught `ValueError` that aborts the whole
document instead of skipping the row. -/
theorem c10_malformed_time_aborts :
    processRows [] 2025 6 [c4row1, c10row] = .error valueError ∧
    parse_time_label "9:75pm" = .error valueError ∧
    parse_time_label "99:00am" = .error valueError := by
  exact ⟨rfl, rfl, rfl⟩
